import Mathlib

set_option maxHeartbeats 1000000

/-! Shallow embedding of the Raft consensus core of the startup-news-backend
repository (consensus.py, server.py, writer.py, post.py, comment.py), together
with theorems settling the frozen claims about it.  Files, timers, threads and
the network are outside the state model: persistence is modelled by the JSON
value the store file holds, RPC handlers are modelled as functions from a
node state and a request to a new state and a response, and a Python exception
escaping a handler is modelled by an Option-valued result being none. -/

namespace SNB

/-- Role of a node, server.py / consensus.py `role` ("follower", "candidate", "leader"). -/
inductive Role where
  | follower
  | candidate
  | leader
deriving DecidableEq, Repr

/-- A Raft log entry (consensus.py `RaftLogEntry`): a term, an operation name
and positional string parameters. -/
structure RaftLogEntry where
  term : Int
  operation : String
  params : List String
deriving DecidableEq, Repr

/-- A JSON value as produced by Python `json.load` over the raft state file.
Numbers are modelled as integers, which covers everything the store writes. -/
inductive JVal where
  | jnull
  | jint (n : Int)
  | jstr (s : String)
  | jlist (xs : List JVal)
  | jdict (kvs : List (String × JVal))

/-- Outcome of opening and json-parsing the raft store file in
`RaftNode.load_raft_state`: missing file (`os.path.exists` false), a
`json.load` failure, or a parsed JSON value. -/
inductive RaftFileSt where
  | missing
  | unparsable
  | parsed (v : JVal)

/-- Persistent consensus state of one node (consensus.py `RaftNode`):
`currentTerm`, `votedFor` and the log. -/
structure RaftPersist where
  currentTerm : Int
  votedFor : Option String
  log : List RaftLogEntry
deriving DecidableEq, Repr

/-- Lookup of a key in a JSON object, Python `dict` access / `dict.get`. -/
def jlookup : List (String × JVal) → String → Option JVal
  | [], _ => none
  | (k, v) :: rest, key => if k = key then some v else jlookup rest key

/-- Extraction of a JSON string, used for decoding `params` elements. -/
def strVal : JVal → Option String
  | .jstr s => some s
  | _ => none

/-- Effect of a Python list comprehension that may raise: the whole list is
produced, or the first failure aborts everything. -/
def optMap (f : α → Option β) : List α → Option (List β)
  | [] => some []
  | a :: as =>
    match f a with
    | none => none
    | some b =>
      match optMap f as with
      | none => none
      | some bs => some (b :: bs)

/-- consensus.py `RaftLogEntry.to_dict`. -/
def entryToDict (e : RaftLogEntry) : JVal :=
  .jdict [("term", .jint e.term), ("operation", .jstr e.operation),
          ("params", .jlist (e.params.map .jstr))]

/-- consensus.py `RaftLogEntry.from_dict`: `d["term"]`, `d["operation"]`,
`d["params"]`; a missing key raises KeyError, modelled as none.  A value of the
wrong shape for the field (which Python would accept unchecked, producing an
entry the rest of the program could not use) is likewise modelled as a decode
failure. -/
def entryFromDict (v : JVal) : Option RaftLogEntry :=
  match v with
  | .jdict kvs =>
    match jlookup kvs "term", jlookup kvs "operation", jlookup kvs "params" with
    | some (.jint t), some (.jstr op), some (.jlist ps) =>
      match optMap strVal ps with
      | some args => some ⟨t, op, args⟩
      | none => none
    | _, _, _ => none
  | _ => none

/-- Decoding of `data.get("currentTerm", 0)`: absent key yields the default 0. -/
def termField (kvs : List (String × JVal)) : Option Int :=
  match jlookup kvs "currentTerm" with
  | none => some 0
  | some (.jint n) => some n
  | some _ => none

/-- Decoding of `data.get("votedFor", None)`: absent key or JSON null yields none. -/
def votedField (kvs : List (String × JVal)) : Option (Option String) :=
  match jlookup kvs "votedFor" with
  | none => some none
  | some .jnull => some none
  | some (.jstr s) => some (some s)
  | some _ => none

/-- Decoding of `data.get("log", [])` followed by the `from_dict` comprehension. -/
def logField (kvs : List (String × JVal)) : Option (List RaftLogEntry) :=
  match jlookup kvs "log" with
  | none => some []
  | some (.jlist xs) => optMap entryFromDict xs
  | some _ => none

/-- consensus.py `RaftNode.load_raft_state`.  The whole body is a try with a
bare `except: pass`, and the three assignments happen in order, so an exception
raised while decoding a later field leaves the earlier fields already
assigned.  `s0` is the in-memory state at call time (the freshly zeroed node). -/
def loadRaftState (file : RaftFileSt) (s0 : RaftPersist) : RaftPersist :=
  match file with
  | .missing => s0
  | .unparsable => s0
  | .parsed v =>
    match v with
    | .jdict kvs =>
      match termField kvs with
      | none => s0
      | some t =>
        let s1 : RaftPersist := { s0 with currentTerm := t }
        match votedField kvs with
        | none => s1
        | some vf =>
          let s2 : RaftPersist := { s1 with votedFor := vf }
          match logField kvs with
          | none => s2
          | some lg => { s2 with log := lg }
    | _ => s0

/-- Encoding of `votedFor` written by `save_raft_state` (json None is null). -/
def votedForToJ : Option String → JVal
  | none => .jnull
  | some s => .jstr s

/-- consensus.py `RaftNode.save_raft_state`: the JSON document written (atomic
temp-file-plus-rename and fsync are file-system mechanics outside the model). -/
def savePersist (s : RaftPersist) : JVal :=
  .jdict [("currentTerm", .jint s.currentTerm),
          ("votedFor", votedForToJ s.votedFor),
          ("log", .jlist (s.log.map entryToDict))]

/-- Zero consensus state, the field initialisation in `RaftNode.__init__`. -/
def zeroPersist : RaftPersist := ⟨0, none, []⟩

/-- consensus.py `RaftNode.__init__`: zero the persistent fields, then
`load_raft_state` from the store file. -/
def raftNodeInit (file : RaftFileSt) : RaftPersist :=
  loadRaftState file zeroPersist

/-- server.py `Server.__init__` lines 70-86 restricted to the persistent
consensus fields: construct the RaftNode (which loads the store), then reset
`votedFor` to None ("to break deadlock") and re-save. -/
def serverInitPersist (file : RaftFileSt) : RaftPersist :=
  let p := raftNodeInit file
  { p with votedFor := none }

theorem optMap_strVal_map (ps : List String) :
    optMap strVal (ps.map JVal.jstr) = some ps := by
  induction ps with
  | nil => rfl
  | cons a as ih => simp [optMap, strVal, ih]

theorem entry_roundtrip (e : RaftLogEntry) :
    entryFromDict (entryToDict e) = some e := by
  cases e with
  | mk t op ps =>
    simp [entryToDict, entryFromDict, jlookup, optMap_strVal_map]

theorem log_roundtrip (log : List RaftLogEntry) :
    optMap entryFromDict (log.map entryToDict) = some log := by
  induction log with
  | nil => rfl
  | cons e es ih => simp [optMap, entry_roundtrip, ih]

/-- Saving and re-loading restores the persistent state exactly, whatever the
in-memory state at load time was. -/
theorem load_save_roundtrip (s : RaftPersist) (z : RaftPersist) :
    loadRaftState (.parsed (savePersist s)) z = s := by
  cases s with
  | mk t vf lg =>
    cases vf with
    | none =>
      simp [savePersist, loadRaftState, termField, votedField, logField,
        jlookup, votedForToJ, log_roundtrip]
    | some a =>
      simp [savePersist, loadRaftState, termField, votedField, logField,
        jlookup, votedForToJ, log_roundtrip]

/-- Modelled from the spec: the application user record of user.py, which is
not under src/.  The spec (section 3) models users as subscriber emails;
server.py additionally reads the fields `posts`, `followers` and
`subscriptions` from User objects and constructs them with `User(email)`,
which leaves those lists empty. -/
structure User where
  email : String
  posts : List String
  followers : List String
  subscriptions : List String
deriving DecidableEq, Repr

/-- `User(email)`: a fresh subscriber record. -/
def mkUser (email : String) : User := ⟨email, [], [], []⟩

/-- writer.py `Writer`: email, display name and password hash (bytes in the
source, modelled as the hash string). -/
structure Writer where
  email : String
  name : String
  password : String
deriving DecidableEq, Repr

/-- comment.py `Comment`; the datetime is modelled by its ISO string. -/
structure Comment where
  post_id : String
  email : String
  text : String
  timestamp : String
deriving DecidableEq, Repr

/-- post.py `Post`; the datetime is modelled by its ISO string. -/
structure Post where
  post_id : String
  author : String
  title : String
  content : String
  timestamp : String
  likes : List String
  comments : List Comment
deriving DecidableEq, Repr

/-- Removal of the first occurrence, Python `list.remove` guarded by `in`
(identity when the element is absent, exactly as the guarded source calls). -/
def removeFirst : List String → String → List String
  | [], _ => []
  | x :: xs, y => if x = y then xs else x :: removeFirst xs y

/-- post.py `Post.like`: append the username to `likes` unless present. -/
def Post.like (p : Post) (username : String) : Post :=
  if p.likes.contains username then p else { p with likes := p.likes ++ [username] }

/-- post.py `Post.unlike`: remove the username from `likes` if present. -/
def Post.unlike (p : Post) (username : String) : Post :=
  { p with likes := removeFirst p.likes username }

/-- Modelled from the spec: `bcrypt.hashpw` (external library).  The spec
(section 9 O2) relies on the hash being a function of password and salt, and on
bcrypt embedding the salt in its output (that is how `checkpw` can re-derive
it), so distinct salts give distinct hashes of the same password; the model
makes that embedding explicit. -/
def hashpw (password salt : String) : String :=
  "bcrypt$" ++ salt ++ "$" ++ password

/-- External library functions the server calls, abstracted as parameters:
`email_validator.validate_email` (true means no exception),
`bcrypt.checkpw password storedHash`, `datetime.fromisoformat` (none means
ValueError), and `json.loads` of a replica config returning its "id" field
(none means any exception while parsing or reading the field). -/
structure Ext where
  validEmail : String → Bool
  checkpw : String → String → Bool
  parseISO : String → Option String
  parseCfg : String → Option String

/-- Lookup in an insertion-ordered association list, Python dict subscript /
`in` / `.get`. -/
def getA (m : List (String × α)) (k : String) : Option α :=
  match m with
  | [] => none
  | (k', v) :: rest => if k' = k then some v else getA rest k

/-- Keyed assignment: replace in place when the key exists, else append,
matching Python dict assignment with insertion order. -/
def setA (m : List (String × α)) (k : String) (v : α) : List (String × α) :=
  match m with
  | [] => [(k, v)]
  | (k', v') :: rest => if k' = k then (k', v) :: rest else (k', v') :: setA rest k v

/-- Keyed deletion of the (unique) binding, Python `del d[k]`. -/
def delA (m : List (String × α)) (k : String) : List (String × α) :=
  match m with
  | [] => []
  | (k', v') :: rest => if k' = k then rest else (k', v') :: delA rest k

/-- Whole in-memory state of one server (server.py `Server` plus its
`RaftNode`): consensus fields, leader progress, the replica ids of
`replicas_config`, and the application tables. -/
structure ServerSt where
  currentTerm : Int
  votedFor : Option String
  log : List RaftLogEntry
  commitIndex : Nat
  lastApplied : Nat
  role : Role
  nextIndex : List (String × Nat)
  matchIndex : List (String × Nat)
  replicasConfig : List String
  user_database : List (String × User)
  writers_database : List (String × Writer)
  posts_database : List (String × Post)
deriving DecidableEq, Repr

/-- server.py `Server.apply_blog_operation`, one committed entry fed to the
state machine.  `salt` is the `bcrypt.gensalt()` drawn if the entry creates an
account and `now` the `datetime.now()` drawn if it comments.  The result is
none when the Python code would raise (KeyError, ValueError, IndexError or a
parse failure), and `some` of the unchanged state when the source silently
returns. -/
def applyBlogOperation (ext : Ext) (salt now : String) (e : RaftLogEntry)
    (s : ServerSt) : Option ServerSt :=
  if e.operation = "SUBSCRIBE" then
    match e.params with
    | [email] =>
      if (getA s.user_database email).isSome then some s
      else some { s with user_database := setA s.user_database email (mkUser email) }
    | _ => some s
  else if e.operation = "CREATE_ACCOUNT" then
    match e.params with
    | [name, email, password] =>
      if (getA s.writers_database email).isSome then some s
      else
        let w : Writer := ⟨email, name, hashpw password salt⟩
        some { s with writers_database := setA s.writers_database email w }
    | _ => some s
  else if e.operation = "COMMENT_POST" then
    match e.params with
    | [post_id, email, text] =>
      match getA s.posts_database post_id with
      | none => none
      | some p =>
        let p2 := { p with comments := p.comments ++ [⟨post_id, email, text, now⟩] }
        some { s with posts_database := setA s.posts_database post_id p2 }
    | _ => some s
  else if e.operation = "CREATE_POST" then
    if e.params.length < 5 then some s
    else
      match e.params with
      | [post_id, title, content, author, ts] =>
        match ext.parseISO ts with
        | none => none
        | some t =>
          let p : Post := ⟨post_id, author, title, content, t, [], []⟩
          some { s with posts_database := setA s.posts_database post_id p }
      | _ => none
  else if e.operation = "LIKE_POST" then
    if e.params.length < 2 then some s
    else
      match e.params with
      | [post_id, username] =>
        match getA s.posts_database post_id, getA s.user_database username with
        | some p, some _ =>
            some { s with posts_database := setA s.posts_database post_id (p.like username) }
        | _, _ => some s
      | _ => none
  else if e.operation = "UNLIKE_POST" then
    if e.params.length < 2 then some s
    else
      match e.params with
      | [post_id, username] =>
        match getA s.posts_database post_id, getA s.user_database username with
        | some p, some _ =>
            some { s with posts_database := setA s.posts_database post_id (p.unlike username) }
        | _, _ => some s
      | _ => none
  else if e.operation = "DELETE_POST" then
    if e.params.length < 2 then some s
    else
      match e.params with
      | [post_id, author] =>
        match getA s.posts_database post_id with
        | some p =>
          if author = p.author then
            match getA s.user_database author with
            | none => none
            | some u =>
              let u2 := { u with posts := removeFirst u.posts post_id }
              some { s with
                user_database := setA s.user_database author u2,
                posts_database := delA s.posts_database post_id }
          else some s
        | none => some s
      | _ => none
  else if e.operation = "DELETE_ACCOUNT" then
    match e.params with
    | [] => some s
    | username :: _ =>
      match getA s.user_database username with
      | none => some s
      | some u =>
        let users1 := s.user_database.map (fun kv =>
          (kv.1, { kv.2 with
            followers := removeFirst kv.2.followers username,
            subscriptions := removeFirst kv.2.subscriptions username }))
        let posts1 := u.posts.foldl
          (fun acc pid => if (getA acc pid).isSome then delA acc pid else acc)
          s.posts_database
        some { s with posts_database := posts1, user_database := delA users1 username }
  else if e.operation = "ADD_REPLICA" then
    match e.params with
    | [] => none
    | cfg :: _ =>
      match ext.parseCfg cfg with
      | none => none
      | some rid =>
        let replicas1 := if s.replicasConfig.contains rid then s.replicasConfig
                         else s.replicasConfig ++ [rid]
        some { s with replicasConfig := replicas1,
                      nextIndex := setA s.nextIndex rid (s.log.length + 1),
                      matchIndex := setA s.matchIndex rid 0 }
  else if e.operation = "REMOVE_REPLICA" then
    match e.params with
    | [] => none
    | rid :: _ =>
      some { s with replicasConfig := s.replicasConfig.filter (fun r => r != rid),
                    nextIndex := delA s.nextIndex rid,
                    matchIndex := delA s.matchIndex rid }
  else some s

/-- Fuelled unfolding of the while loop of `Server.apply_committed_entries`:
while `lastApplied < commitIndex`, increment `lastApplied` and apply
`log[lastApplied - 1]`.  Reading past the end of the log is the IndexError the
source would raise there.  The oracle supplies the salt and timestamp drawn at
each apply position. -/
def applyN (ext : Ext) (oracle : Nat → String × String) :
    Nat → ServerSt → Option ServerSt
  | 0, s => some s
  | k + 1, s =>
    if s.lastApplied < s.commitIndex then
      match s.log.get? s.lastApplied with
      | none => none
      | some e =>
        match applyBlogOperation ext (oracle s.lastApplied).1 (oracle s.lastApplied).2 e
            { s with lastApplied := s.lastApplied + 1 } with
        | none => none
        | some s2 => applyN ext oracle k s2
    else some s

/-- server.py `Server.apply_committed_entries` (the trailing `save_data` writes
files and does not change in-memory state). -/
def applyCommitted (ext : Ext) (oracle : Nat → String × String) (s : ServerSt) :
    Option ServerSt :=
  applyN ext oracle (s.commitIndex - s.lastApplied) s

/-- consensus.py `RaftNode.last_log_index`. -/
def lastLogIndexOf (log : List RaftLogEntry) : Nat := log.length

/-- consensus.py `RaftNode.last_log_term` (0 for an empty log). -/
def lastLogTermOf (log : List RaftLogEntry) : Int :=
  match log.getLast? with
  | none => 0
  | some e => e.term

/-- Loop body of `RaftNode.append_entries_to_log` for `prevLogIndex > 0`,
walking positions `i, i+1, ...` over the incoming entries: a term conflict at
an occupied slot truncates the log at that slot and appends the new entry, an
empty slot appends, and a matching term keeps the existing entry. -/
def reconcileLoop (log : List RaftLogEntry) (i : Nat) :
    List RaftLogEntry → List RaftLogEntry
  | [] => log
  | e :: rest =>
    match log.get? i with
    | some ei =>
      if ei.term ≠ e.term then reconcileLoop (log.take i ++ [e]) (i + 1) rest
      else reconcileLoop log (i + 1) rest
    | none => reconcileLoop (log ++ [e]) (i + 1) rest

/-- consensus.py `RaftNode.append_entries_to_log`: the new log and the returned
success flag (the `save_raft_state` calls write the file and do not change the
in-memory log). -/
def appendEntriesToLog (log : List RaftLogEntry) (prevLogIndex : Nat)
    (prevLogTerm : Int) (entries : List RaftLogEntry) :
    List RaftLogEntry × Bool :=
  if prevLogIndex = 0 then
    match entries with
    | [] => (log, true)
    | e0 :: _ =>
      match log with
      | [] => (log ++ entries, true)
      | l0 :: _ =>
        if l0.term ≠ e0.term then (entries, true)
        else (log ++ entries, true)
  else if prevLogIndex > log.length then (log, false)
  else
    match log.get? (prevLogIndex - 1) with
    | some pe =>
      if pe.term ≠ prevLogTerm then (log, false)
      else (reconcileLoop log prevLogIndex entries, true)
    | none => (log, false)

/-- Fields of an AppendEntries request (protos Request as used by server.py). -/
structure AEReq where
  term : Int
  leaderId : String
  prevLogIndex : Nat
  prevLogTerm : Int
  entries : List RaftLogEntry
  leaderCommit : Nat
deriving DecidableEq, Repr

/-- Fields of an AppendEntries response. -/
structure AEResp where
  term : Int
  success : Bool
deriving DecidableEq, Repr

/-- server.py `Server.AppendEntries`, the follower-side RPC handler.  Election
timer resets and the persistence calls are outside the state model; a raised
exception while applying committed entries is none. -/
def appendEntriesStep (ext : Ext) (oracle : Nat → String × String)
    (s : ServerSt) (req : AEReq) : Option (ServerSt × AEResp) :=
  if req.term < s.currentTerm then some (s, ⟨s.currentTerm, false⟩)
  else
    let s1 := if req.term > s.currentTerm then
        { s with role := .follower, currentTerm := req.term, votedFor := none }
      else s
    let res := if req.prevLogIndex = 0 then (req.entries, true)
      else appendEntriesToLog s1.log req.prevLogIndex req.prevLogTerm req.entries
    let s2 := { s1 with log := res.1 }
    if res.2 = false then some (s2, ⟨s2.currentTerm, false⟩)
    else
      let ciPair : Nat × Bool :=
        if req.leaderCommit > s2.commitIndex then
          let newCi := min req.leaderCommit s2.log.length
          (newCi, decide (newCi > s2.commitIndex))
        else (s2.commitIndex, false)
      let s3 := { s2 with commitIndex := ciPair.1 }
      if ciPair.2 then
        match applyCommitted ext oracle s3 with
        | none => none
        | some s4 => some (s4, ⟨s4.currentTerm, true⟩)
      else some (s3, ⟨s3.currentTerm, true⟩)

/-- Fields of a RequestVote request. -/
structure VoteReq where
  term : Int
  candidateId : String
  lastLogIndex : Nat
  lastLogTerm : Int
deriving DecidableEq, Repr

/-- Fields of a RequestVote response. -/
structure VoteResp where
  term : Int
  voteGranted : Bool
deriving DecidableEq, Repr

/-- server.py `Server.RequestVote`, the receiver-side RPC handler (timer resets
and persistence are outside the state model). -/
def requestVote (s : ServerSt) (req : VoteReq) : ServerSt × VoteResp :=
  if req.term < s.currentTerm then (s, ⟨s.currentTerm, false⟩)
  else
    let s1 := if req.term > s.currentTerm then
        { s with currentTerm := req.term, votedFor := none, role := .follower }
      else s
    let alreadyVoted := s1.votedFor.isSome && (s1.votedFor != some req.candidateId)
    let logIsCurrent := decide (req.lastLogTerm > lastLogTermOf s1.log) ||
      ((req.lastLogTerm == lastLogTermOf s1.log) &&
        decide (req.lastLogIndex ≥ lastLogIndexOf s1.log))
    if (!alreadyVoted) && logIsCurrent then
      ({ s1 with votedFor := some req.candidateId }, ⟨s1.currentTerm, true⟩)
    else (s1, ⟨s1.currentTerm, false⟩)

/-- Restatement of claim C7 in the words of the spec (section 4.4, RequestVote
receiver rules), giving the triple (currentTerm, votedFor, voteGranted) the
claim predicts after the call; used as the reference of the refinement
theorem. -/
def requestVoteClaim (s : ServerSt) (req : VoteReq) :
    Int × Option String × Bool :=
  if req.term < s.currentTerm then (s.currentTerm, s.votedFor, false)
  else
    let t := max s.currentTerm req.term
    let vf := if req.term > s.currentTerm then none else s.votedFor
    let upToDate : Prop := req.lastLogTerm > lastLogTermOf s.log ∨
      (req.lastLogTerm = lastLogTermOf s.log ∧ req.lastLogIndex ≥ s.log.length)
    let grant : Prop := (vf = none ∨ vf = some req.candidateId) ∧ upToDate
    if grant then (t, some req.candidateId, true) else (t, vf, false)

/-- Majority-counting condition of the commit loop in
`Server.handle_append_entries_response`: the entry at index n is from the
current term and self (counted as 1) plus the followers whose matchIndex is at
least n reach the majority `len(replicas_config) // 2 + 1`. -/
def commitCond (s : ServerSt) (n : Nat) : Bool :=
  decide (n > 0) &&
  (match s.log.get? (n - 1) with
   | some e => e.term == s.currentTerm
   | none => false) &&
  decide (1 + (s.matchIndex.filter (fun kv => decide (kv.2 ≥ n))).length ≥
    s.replicasConfig.length / 2 + 1)

/-- First index at or after `a` among the next `k` indices satisfying `P`,
the `for ... break` shape of the commit loop. -/
def findCommit (P : Nat → Bool) : Nat → Nat → Option Nat
  | _, 0 => none
  | a, k + 1 => if P a then some a else findCommit P (a + 1) k

/-- Commit-index update of `Server.handle_append_entries_response`: scan
`n = commitIndex+1 .. len(log)` and stop at the first n whose entry is from the
current term and is matched by a majority; otherwise leave commitIndex. -/
def advanceCommit (s : ServerSt) : Nat :=
  (findCommit (commitCond s) (s.commitIndex + 1) (s.log.length - s.commitIndex)).getD
    s.commitIndex

/-- Largest index at or below `a` among the `k` indices scanned downward
satisfying `P`. -/
def findLargest (P : Nat → Bool) : Nat → Nat → Option Nat
  | _, 0 => none
  | a, k + 1 => if P a then some a else findLargest P (a - 1) k

/-- Restatement of claim C6 in the claim's words: advance commitIndex to the
LARGEST N (up to the log length) whose entry is from the current term and is
matched by a strict majority counting the leader itself; used as the reference
the counterexample is measured against.  The scan runs downward from the log
length to just above commitIndex. -/
def advanceCommitSpecLargest (s : ServerSt) : Nat :=
  (findLargest (commitCond s) s.log.length (s.log.length - s.commitIndex)).getD
    s.commitIndex

/-- server.py `Server.handle_append_entries_response` (the retransmission on
failure is network behaviour; only the state change is modelled).  A missing
progress entry for the follower is the KeyError the source would raise. -/
def handleAEResponse (ext : Ext) (oracle : Nat → String × String)
    (s : ServerSt) (resp : AEResp) (followerId : String) (req : AEReq) :
    Option ServerSt :=
  if resp.term > s.currentTerm then
    some { s with role := .follower, currentTerm := resp.term, votedFor := none }
  else if s.role ≠ .leader then some s
  else if resp.success then
    let upd : Option ServerSt :=
      if req.entries.length > 0 then
        match getA s.nextIndex followerId with
        | none => none
        | some ni =>
          let ni2 := ni + req.entries.length
          some { s with nextIndex := setA s.nextIndex followerId ni2,
                        matchIndex := setA s.matchIndex followerId (ni2 - 1) }
      else some s
    match upd with
    | none => none
    | some s1 =>
      let s2 := { s1 with commitIndex := advanceCommit s1 }
      applyCommitted ext oracle s2
  else
    match getA s.nextIndex followerId with
    | none => none
    | some ni =>
      if ni > 1 then some { s with nextIndex := setA s.nextIndex followerId (ni - 1) }
      else some s

/-- server.py `Server.replicate_command` on the serving node: non-leaders fail
immediately; the leader appends the entry, commits it at once
(`commitIndex = len(log)`), applies, and then fans out AppendEntries (outbound
RPCs, no synchronous local state change).  The returned Nat is the module
constant SUCCESS = 0 or FAILURE = 1. -/
def replicateCommand (ext : Ext) (oracle : Nat → String × String)
    (s : ServerSt) (op : String) (params : List String) :
    Option (ServerSt × Nat) :=
  if s.role ≠ .leader then some (s, 1)
  else
    let e : RaftLogEntry := ⟨s.currentTerm, op, params⟩
    let s1 := { s with log := s.log ++ [e] }
    let s2 := { s1 with commitIndex := s1.log.length }
    match applyCommitted ext oracle s2 with
    | none => none
    | some s3 => some (s3, 0)

/-- Response codes of server.py (`SUCCESS = 0`, `FAILURE = 1`). -/
def SUCCESS : Nat := 0

/-- Response code FAILURE of server.py. -/
def FAILURE : Nat := 1

/-- Generic blog response envelope (`Response(operation, info)`). -/
structure BlogResp where
  operation : Nat
  info : List String
deriving DecidableEq, Repr

/-- Response every mutating handler returns to a non-leader call. -/
def notLeaderResp : BlogResp := ⟨FAILURE, ["Not leader"]⟩

/-- server.py `Server.RPCCreateAccount`. -/
def rpcCreateAccount (ext : Ext) (oracle : Nat → String × String)
    (s : ServerSt) (info : List String) : Option (ServerSt × BlogResp) :=
  if s.role ≠ .leader then some (s, notLeaderResp)
  else if info.length ≠ 3 then some (s, ⟨FAILURE, ["Missing name/email/password"]⟩)
  else
    match info with
    | [name, email, password] =>
      if !ext.validEmail email then some (s, ⟨FAILURE, ["Invalid email format"]⟩)
      else if password.length < 8 then
        some (s, ⟨FAILURE, ["Password must be at least 8 characters"]⟩)
      else if (getA s.writers_database email).isSome then
        some (s, ⟨FAILURE, ["Email already taken"]⟩)
      else
        match replicateCommand ext oracle s "CREATE_ACCOUNT" [name, email, password] with
        | none => none
        | some (s1, r) =>
          if r = SUCCESS then some (s1, ⟨SUCCESS, []⟩)
          else some (s1, ⟨FAILURE, ["Could not create account"]⟩)
    | _ => none

/-- server.py `Server.RPCSubscribe`. -/
def rpcSubscribe (ext : Ext) (oracle : Nat → String × String)
    (s : ServerSt) (info : List String) : Option (ServerSt × BlogResp) :=
  if s.role ≠ .leader then some (s, notLeaderResp)
  else if info.length ≠ 1 then some (s, ⟨FAILURE, ["Missing email"]⟩)
  else
    let email := info.headD ""
    if !ext.validEmail email then
      some (s, ⟨FAILURE, ["Email must be a valid email"]⟩)
    else if (getA s.user_database email).isSome then
      some (s, ⟨FAILURE, ["Email already taken"]⟩)
    else
      match replicateCommand ext oracle s "SUBSCRIBE" [email] with
      | none => none
      | some (s1, r) =>
        if r = SUCCESS then some (s1, ⟨SUCCESS, []⟩)
        else some (s1, ⟨FAILURE, ["Could not replicate"]⟩)

/-- server.py `Server.RPCCreatePost`; `uuid` is the generated post id and
`now` the ISO form of the `datetime.now()` drawn in the handler. -/
def rpcCreatePost (ext : Ext) (oracle : Nat → String × String)
    (uuid now : String) (s : ServerSt) (info : List String) :
    Option (ServerSt × BlogResp) :=
  if s.role ≠ .leader then some (s, notLeaderResp)
  else if info.length ≠ 3 then some (s, ⟨FAILURE, ["Invalid request format"]⟩)
  else
    match info with
    | [title, content, author] =>
      if title = "" ∨ content = "" ∨ author = "" then
        some (s, ⟨FAILURE, ["Missing required fields"]⟩)
      else
        match replicateCommand ext oracle s "CREATE_POST"
            [uuid, title, content, author, now] with
        | none => none
        | some (s1, r) =>
          if r = SUCCESS then
            let p : Post := ⟨uuid, author, title, content, now, [], []⟩
            some ({ s1 with posts_database := setA s1.posts_database uuid p },
                  ⟨SUCCESS, []⟩)
          else some (s1, ⟨FAILURE, ["Failed to replicate post"]⟩)
    | _ => none

/-- server.py `Server.RPCCommentPost`; after a successful replication the
handler appends the comment to the local post a second time (the state machine
already appended it during apply).  `now` is the handler-side
`datetime.now()`. -/
def rpcCommentPost (ext : Ext) (oracle : Nat → String × String) (now : String)
    (s : ServerSt) (info : List String) : Option (ServerSt × BlogResp) :=
  if s.role ≠ .leader then some (s, notLeaderResp)
  else if info.length < 3 then some (s, ⟨FAILURE, ["Missing post_id/email/text"]⟩)
  else
    match info with
    | [post_id, email, text] =>
      if (getA s.posts_database post_id).isNone then
        some (s, ⟨FAILURE, ["Post does not exist"]⟩)
      else if (getA s.user_database email).isNone then
        some (s, ⟨FAILURE, ["User does not exist"]⟩)
      else
        match replicateCommand ext oracle s "COMMENT_POST" [post_id, email, text] with
        | none => none
        | some (s1, r) =>
          if r = SUCCESS then
            match getA s1.posts_database post_id with
            | none => none
            | some p =>
              let p2 := { p with comments := p.comments ++ [⟨post_id, email, text, now⟩] }
              some ({ s1 with posts_database := setA s1.posts_database post_id p2 },
                    ⟨SUCCESS, []⟩)
          else some (s1, ⟨FAILURE, ["Could not replicate"]⟩)
    | _ => none

/-- server.py `Server.RPCLikePost`. -/
def rpcLikePost (ext : Ext) (oracle : Nat → String × String)
    (s : ServerSt) (info : List String) : Option (ServerSt × BlogResp) :=
  if s.role ≠ .leader then some (s, notLeaderResp)
  else if info.length < 2 then some (s, ⟨FAILURE, ["Missing post_id/username"]⟩)
  else
    match info with
    | [post_id, username] =>
      if (getA s.posts_database post_id).isNone then
        some (s, ⟨FAILURE, ["Post does not exist"]⟩)
      else if (getA s.user_database username).isNone then
        some (s, ⟨FAILURE, ["User does not exist"]⟩)
      else if (getA s.posts_database post_id).elim false
          (fun p => p.likes.contains username) then
        some (s, ⟨FAILURE, ["Post already liked"]⟩)
      else
        match replicateCommand ext oracle s "LIKE_POST" [post_id, username] with
        | none => none
        | some (s1, r) =>
          if r = SUCCESS then some (s1, ⟨SUCCESS, []⟩)
          else some (s1, ⟨FAILURE, ["Could not replicate"]⟩)
    | _ => none

/-- server.py `Server.RPCUnlikePost`. -/
def rpcUnlikePost (ext : Ext) (oracle : Nat → String × String)
    (s : ServerSt) (info : List String) : Option (ServerSt × BlogResp) :=
  if s.role ≠ .leader then some (s, notLeaderResp)
  else if info.length < 2 then some (s, ⟨FAILURE, ["Missing post_id/username"]⟩)
  else
    match info with
    | [post_id, username] =>
      if (getA s.posts_database post_id).isNone then
        some (s, ⟨FAILURE, ["Post does not exist"]⟩)
      else if (getA s.user_database username).isNone then
        some (s, ⟨FAILURE, ["User does not exist"]⟩)
      else if (getA s.posts_database post_id).elim true
          (fun p => !p.likes.contains username) then
        some (s, ⟨FAILURE, ["Post not liked"]⟩)
      else
        match replicateCommand ext oracle s "UNLIKE_POST" [post_id, username] with
        | none => none
        | some (s1, r) =>
          if r = SUCCESS then some (s1, ⟨SUCCESS, []⟩)
          else some (s1, ⟨FAILURE, ["Could not replicate"]⟩)
    | _ => none

/-- server.py `Server.RPCDeletePost`. -/
def rpcDeletePost (ext : Ext) (oracle : Nat → String × String)
    (s : ServerSt) (info : List String) : Option (ServerSt × BlogResp) :=
  if s.role ≠ .leader then some (s, notLeaderResp)
  else if info.length < 2 then some (s, ⟨FAILURE, ["Missing post_id/author"]⟩)
  else
    match info with
    | [post_id, author] =>
      match getA s.posts_database post_id with
      | none => some (s, ⟨FAILURE, ["Post does not exist"]⟩)
      | some p =>
        if author ≠ p.author then some (s, ⟨FAILURE, ["Not post owner"]⟩)
        else
          match replicateCommand ext oracle s "DELETE_POST" [post_id, author] with
          | none => none
          | some (s1, r) =>
            if r = SUCCESS then some (s1, ⟨SUCCESS, []⟩)
            else some (s1, ⟨FAILURE, ["Could not replicate"]⟩)
    | _ => none

/-- server.py `Server.RPCDeleteAccount`. -/
def rpcDeleteAccount (ext : Ext) (oracle : Nat → String × String)
    (s : ServerSt) (info : List String) : Option (ServerSt × BlogResp) :=
  if s.role ≠ .leader then some (s, notLeaderResp)
  else if info.length < 1 then some (s, ⟨FAILURE, ["Missing username"]⟩)
  else
    let username := info.headD ""
    if (getA s.user_database username).isNone then
      some (s, ⟨FAILURE, ["User does not exist"]⟩)
    else
      match replicateCommand ext oracle s "DELETE_ACCOUNT" [username] with
      | none => none
      | some (s1, r) =>
        if r = SUCCESS then some (s1, ⟨SUCCESS, []⟩)
        else some (s1, ⟨FAILURE, ["Could not replicate"]⟩)

/-- server.py `Server.RPCAddReplica`. -/
def rpcAddReplica (ext : Ext) (oracle : Nat → String × String)
    (s : ServerSt) (info : List String) : Option (ServerSt × BlogResp) :=
  if s.role ≠ .leader then some (s, notLeaderResp)
  else if info.length < 1 then some (s, ⟨FAILURE, ["Missing replica config"]⟩)
  else
    match replicateCommand ext oracle s "ADD_REPLICA" [info.headD ""] with
    | none => none
    | some (s1, r) =>
      if r = SUCCESS then some (s1, ⟨SUCCESS, []⟩)
      else some (s1, ⟨FAILURE, ["Could not replicate"]⟩)

/-- server.py `Server.RPCRemoveReplica`. -/
def rpcRemoveReplica (ext : Ext) (oracle : Nat → String × String)
    (s : ServerSt) (info : List String) : Option (ServerSt × BlogResp) :=
  if s.role ≠ .leader then some (s, notLeaderResp)
  else if info.length < 1 then some (s, ⟨FAILURE, ["Missing replica ID"]⟩)
  else
    match replicateCommand ext oracle s "REMOVE_REPLICA" [info.headD ""] with
    | none => none
    | some (s1, r) =>
      if r = SUCCESS then some (s1, ⟨SUCCESS, []⟩)
      else some (s1, ⟨FAILURE, ["Could not replicate"]⟩)

/-- server.py `Server.RPCLogin`: no leader gate, no state mutation; the same
reason string is produced for an unknown email and a failed password check. -/
def rpcLogin (ext : Ext) (s : ServerSt) (info : List String) :
    ServerSt × BlogResp :=
  if info.length ≠ 2 then (s, ⟨FAILURE, ["Missing email/password"]⟩)
  else
    match info with
    | [email, password] =>
      if !ext.validEmail email then (s, ⟨FAILURE, ["Invalid email format"]⟩)
      else
        match getA s.writers_database email with
        | none => (s, ⟨FAILURE, ["Invalid credentials"]⟩)
        | some w =>
          if !ext.checkpw password w.password then
            (s, ⟨FAILURE, ["Invalid credentials"]⟩)
          else (s, ⟨SUCCESS, []⟩)
    | _ => (s, ⟨FAILURE, ["Missing email/password"]⟩)

/-- Default instantiation of the external library functions, used where a
closed statement needs one and the evaluated path never consults it. -/
def extDefault : Ext := ⟨fun _ => true, fun _ _ => false, fun t => some t, fun _ => none⟩

/-- Default oracle for salts and timestamps drawn during apply. -/
def oracleDefault : Nat → String × String := fun _ => ("salt0", "now0")

/-- Fresh in-memory state of a just-started node with empty stores. -/
def initServer : ServerSt :=
  ⟨0, none, [], 0, 0, .follower, [], [], [], [], [], []⟩

/-- Follower state for C1: one local entry of term 1. -/
def c1state : ServerSt :=
  { initServer with currentTerm := 1, log := [⟨1, "a", []⟩] }

/-- AppendEntries request for C1: prev_idx = 0, one new entry whose term equals
the first local entry's term. -/
def c1req : AEReq := ⟨1, "L", 0, 0, [⟨1, "b", []⟩], 0⟩

/-- C1 (counterexample): at prev_idx = 0 with a non-empty local log whose first
entry's term (1) equals new_entries[0].term (1), the claim predicts no clearing
and an append, i.e. the log [a, b]; the handler `Server.AppendEntries` instead
replaces the log wholesale with the request's entries, truncating the entry the
leader did not mention in this RPC. -/
theorem C1_counterexample :
    (appendEntriesStep extDefault oracleDefault c1state c1req).map
        (fun p => (p.1.log, p.2.success)) = some ([⟨1, "b", []⟩], true) ∧
    c1state.log ++ c1req.entries = [⟨1, "a", []⟩, ⟨1, "b", []⟩] ∧
    [(⟨1, "b", []⟩ : RaftLogEntry)] ≠ [⟨1, "a", []⟩, ⟨1, "b", []⟩] := by
  refine ⟨by decide, by decide, by decide⟩

/-- First request for C2: a leader of term 1 replicates two entries and
commits both. -/
def c2req1 : AEReq := ⟨1, "L", 0, 0, [⟨1, "NOP", []⟩, ⟨1, "NOP", []⟩], 2⟩

/-- Second request for C2: a heartbeat with prev_idx = 0 and no entries, as an
elected leader with an empty log sends. -/
def c2req2 : AEReq := ⟨1, "L", 0, 0, [], 0⟩

/-- The two C2 requests handled in order from a fresh follower. -/
def c2chain : Option ServerSt :=
  match appendEntriesStep extDefault oracleDefault initServer c2req1 with
  | none => none
  | some p =>
    match appendEntriesStep extDefault oracleDefault p.1 c2req2 with
    | none => none
    | some q => some q.1

/-- State the C2 request sequence leaves behind: empty log with
commitIndex = lastApplied = 2. -/
def c2bad : ServerSt :=
  { initServer with currentTerm := 1, commitIndex := 2, lastApplied := 2 }

/-- C2 (code bug): a state reachable by two AppendEntries handler steps has
commitIndex = 2 and lastApplied = 2 with an empty log, violating
lastApplied ≤ commitIndex ≤ last_index(); the handler wholesale-replaces the
log at prev_idx = 0 without lowering or clamping commitIndex, and the next
apply step would read past the end of the log. -/
theorem C2_code_bug :
    c2chain = some c2bad ∧ c2bad.lastApplied = 2 ∧ c2bad.commitIndex = 2 ∧
    c2bad.log.length = 0 ∧ ¬ c2bad.commitIndex ≤ c2bad.log.length := by
  refine ⟨by decide, by decide, by decide, by decide, by decide⟩

/-- Committed prefix for C3: one CREATE_ACCOUNT entry. -/
def c3prefix : List RaftLogEntry :=
  [⟨1, "CREATE_ACCOUNT", ["Ann", "ann@x", "pw12pw12"]⟩]

/-- Applier executed over a committed prefix from a fresh state (log = the
prefix, commitIndex = its length, lastApplied = 0), the two-run harness of the
spec's R2. -/
def runApplier (ext : Ext) (oracle : Nat → String × String)
    (committed : List RaftLogEntry) : Option ServerSt :=
  applyCommitted ext oracle
    { initServer with log := committed, commitIndex := committed.length }

/-- Oracle of the first C3 run: bcrypt.gensalt() returned saltA. -/
def c3oracle1 : Nat → String × String := fun _ => ("saltA", "now")

/-- Oracle of the second C3 run: bcrypt.gensalt() returned saltB. -/
def c3oracle2 : Nat → String × String := fun _ => ("saltB", "now")

/-- C3 (code bug): two runs of the applier over the same committed prefix give
different writers tables, because CREATE_ACCOUNT hashes the replicated
plaintext password with a freshly drawn bcrypt salt at apply time (the spec's
own O2 flags exactly this). -/
theorem C3_code_bug :
    (runApplier extDefault c3oracle1 c3prefix).map (fun s => s.writers_database) ≠
    (runApplier extDefault c3oracle2 c3prefix).map (fun s => s.writers_database) := by
  decide

/-- Entry for C4: COMMENT_POST on a post id that is absent from the tables. -/
def c4entry : RaftLogEntry := ⟨1, "COMMENT_POST", ["P", "u@x", "hi"]⟩

/-- C4 (code bug): applying COMMENT_POST whose post is absent raises KeyError
(`self.posts_database[post_id]` has no existence check), for every choice of
the external functions and oracle values, instead of being the silent no-op the
claim requires. -/
theorem C4_code_bug :
    ∀ ext salt now, applyBlogOperation ext salt now c4entry initServer = none := by
  intro ext salt now
  rfl

/-- Persistent state saved in C5: non-zero term, a recorded vote, one entry. -/
def c5saved : RaftPersist := ⟨3, some "A", [⟨1, "SUBSCRIBE", ["u@x"]⟩]⟩

/-- C5 (counterexample): saving this state and reconstructing the node through
`Server.__init__` does not restore it: `votedFor` comes back None, because the
server deliberately resets it after the RaftNode loads the file. -/
theorem C5_counterexample :
    serverInitPersist (.parsed (savePersist c5saved)) ≠ c5saved ∧
    (serverInitPersist (.parsed (savePersist c5saved))).votedFor = none ∧
    c5saved.votedFor = some "A" := by
  refine ⟨by decide, by decide, by decide⟩

/-- C5 (amended): save-then-reload through `RaftNode.__init__` restores
currentTerm, votedFor and the log exactly; the enclosing `Server.__init__`
then clears votedFor (and re-saves), so after full server construction
currentTerm and the log equal the saved ones while votedFor is None. -/
theorem C5_amended (s : RaftPersist) :
    raftNodeInit (.parsed (savePersist s)) = s ∧
    (serverInitPersist (.parsed (savePersist s))).currentTerm = s.currentTerm ∧
    (serverInitPersist (.parsed (savePersist s))).log = s.log ∧
    (serverInitPersist (.parsed (savePersist s))).votedFor = none := by
  have h : raftNodeInit (.parsed (savePersist s)) = s :=
    load_save_roundtrip s zeroPersist
  refine ⟨h, ?_, ?_, rfl⟩ <;> simp [serverInitPersist, h]

/-- Parsable raft store content for C9 whose log list holds a dict without a
"term" key: json.load succeeds, the term and vote assignments run, and the
entry decode raises KeyError into the bare except. -/
def c9file : JVal :=
  .jdict [("currentTerm", .jint 5), ("votedFor", .jstr "A"),
          ("log", .jlist [.jdict [("operation", .jstr "x")]])]

/-- Load result of the C9 file: term and vote from the file, log left at the
zero default. -/
def c9mixed : RaftPersist := ⟨5, some "A", []⟩

/-- C9 (counterexample): loading this parsable file yields a state whose
currentTerm and votedFor come from the file while the log is the zero-state
default - a mixture that is neither the fresh zero state nor any state
`save_raft_state` ever persisted (saves always write all three fields
together). -/
theorem C9_counterexample :
    loadRaftState (.parsed c9file) zeroPersist = c9mixed ∧
    c9mixed ≠ zeroPersist ∧
    c9mixed.currentTerm = 5 ∧ c9mixed.votedFor = some "A" ∧ c9mixed.log = [] := by
  refine ⟨by decide, by decide, by decide, by decide, by decide⟩

/-- C9 (amended): for a missing or unparsable file the load yields exactly the
in-memory zero state, and for any file produced by `save_raft_state` it yields
exactly the saved state; mixtures arise only for parsable content that no save
produced. -/
theorem C9_amended (s : RaftPersist) (z : RaftPersist) :
    loadRaftState (.parsed (savePersist s)) z = s ∧
    loadRaftState .missing z = z ∧
    loadRaftState .unparsable z = z :=
  ⟨load_save_roundtrip s z, rfl, rfl⟩

/-- Leader state for C6: term 1, two term-1 entries, followers B and C with
matchIndex 0 and 2, cluster of three. -/
def c6state : ServerSt :=
  { initServer with
    currentTerm := 1,
    role := .leader,
    log := [⟨1, "NOP", []⟩, ⟨1, "NOP", []⟩],
    nextIndex := [("B", 1), ("C", 3)],
    matchIndex := [("B", 0), ("C", 2)],
    replicasConfig := ["A", "B", "C"] }

/-- Request whose successful response C6 handles: both entries were sent to B
from prev_idx 0. -/
def c6req : AEReq := ⟨1, "A", 0, 0, [⟨1, "NOP", []⟩, ⟨1, "NOP", []⟩], 0⟩

/-- State after the progress update for B inside the response handler, at
which the commit scan runs. -/
def c6s1 : ServerSt :=
  { c6state with
    nextIndex := [("B", 3), ("C", 3)],
    matchIndex := [("B", 2), ("C", 2)] }

/-- C6 (counterexample): with both followers matching index 2 and both entries
from the current term, the largest qualifying N is 2, but the handler's loop
breaks at the first qualifying index above commitIndex and sets
commitIndex = 1. -/
theorem C6_counterexample :
    (handleAEResponse extDefault oracleDefault c6state ⟨1, true⟩ "B" c6req).map
        (fun s => s.commitIndex) = some 1 ∧
    advanceCommitSpecLargest c6s1 = 2 ∧
    (1 : Nat) ≠ 2 := by
  refine ⟨by decide, by decide, by decide⟩

theorem findCommit_eq_none (P : Nat → Bool) :
    ∀ k a, findCommit P a k = none → ∀ i, a ≤ i → i < a + k → P i = false := by
  intro k
  induction k with
  | zero => intro a _ i h1 h2; omega
  | succ k ih =>
    intro a h i h1 h2
    unfold findCommit at h
    by_cases hp : P a = true
    · simp [hp] at h
    · rcases Nat.eq_or_lt_of_le h1 with rfl | hlt
      · exact Bool.not_eq_true _ |>.mp hp
      · simp only [hp, if_neg, Bool.not_eq_true] at h
        exact ih (a + 1) (by simpa [hp] using h) i hlt (by omega)

theorem findCommit_eq_some (P : Nat → Bool) :
    ∀ k a n, findCommit P a k = some n →
      a ≤ n ∧ n < a + k ∧ P n = true ∧ ∀ i, a ≤ i → i < n → P i = false := by
  intro k
  induction k with
  | zero => intro a n h; simp [findCommit] at h
  | succ k ih =>
    intro a n h
    unfold findCommit at h
    by_cases hp : P a = true
    · simp [hp] at h
      exact ⟨le_of_eq h, by omega, h ▸ hp, fun i h1 h2 => by omega⟩
    · simp [hp] at h
      obtain ⟨h1, h2, h3, h4⟩ := ih (a + 1) n h
      refine ⟨by omega, by omega, h3, ?_⟩
      intro i hi1 hi2
      rcases Nat.eq_or_lt_of_le hi1 with rfl | hlt
      · exact Bool.not_eq_true _ |>.mp hp
      · exact h4 i hlt hi2

/-- C6 (amended): on a successful AppendEntries response the handler advances
commitIndex to the SMALLEST N above the current commitIndex (not the largest)
such that log[N].term equals currentTerm and a strict majority - the leader
counted as matching - has matchIndex at least N; if no index up to the log
length qualifies, commitIndex is unchanged.  `advanceCommit` is exactly the
commit scan the handler runs after updating the follower's progress. -/
theorem C6_amended (s : ServerSt) :
    (advanceCommit s = s.commitIndex ∧
      ∀ n, s.commitIndex < n → n ≤ s.log.length → commitCond s n = false) ∨
    (s.commitIndex < advanceCommit s ∧ advanceCommit s ≤ s.log.length ∧
      commitCond s (advanceCommit s) = true ∧
      ∀ m, s.commitIndex < m → m < advanceCommit s → commitCond s m = false) := by
  rcases h : findCommit (commitCond s) (s.commitIndex + 1) (s.log.length - s.commitIndex)
    with _ | n
  · left
    refine ⟨by simp [advanceCommit, h], ?_⟩
    intro n h1 h2
    exact findCommit_eq_none (commitCond s) _ _ h n (by omega) (by omega)
  · right
    obtain ⟨h1, h2, h3, h4⟩ := findCommit_eq_some (commitCond s) _ _ _ h
    have hadv : advanceCommit s = n := by simp [advanceCommit, h]
    rw [hadv]
    exact ⟨by omega, by omega, h3, fun m hm1 hm2 => h4 m (by omega) hm2⟩

/-- Closed instance of C6 (amended) at the concrete leader state of the
counterexample: the scan result itself satisfies the majority-and-term
condition there. -/
theorem C6_amended_witness : commitCond c6s1 (advanceCommit c6s1) = true := by
  rcases C6_amended c6s1 with ⟨h1, _⟩ | ⟨_, _, h3, _⟩
  · have hl : advanceCommit c6s1 = 1 := by decide
    have hr : c6s1.commitIndex = 0 := by decide
    rw [hl, hr] at h1
    exact absurd h1 (by decide)
  · exact h3

/-- External functions for the C10 counterexample: the email validator rejects
the empty string (as email_validator does), and the bcrypt check accepts
exactly the stored hash of the password. -/
def c10ext : Ext :=
  ⟨fun e => e != "", fun pw h => h == "HASH" ++ pw, fun t => some t, fun _ => none⟩

/-- A writer stored under the empty-string email (the CREATE_ACCOUNT apply
path inserts writers without validating the email). -/
def c10writer : Writer := ⟨"", "Anon", "HASHpw"⟩

/-- Node state for C10 with that writer in the writers table. -/
def c10st : ServerSt := { initServer with writers_database := [("", c10writer)] }

/-- C10 (counterexample): the email "" names an existing writer whose stored
hash verifies the given password, yet RPCLogin replies FAILURE - with reason
"Invalid email format", not "Invalid credentials" - because an email-format
gate the claim does not mention runs before the writers-table lookup. -/
theorem C10_counterexample :
    (rpcLogin c10ext c10st ["", "pw"]).2 = ⟨FAILURE, ["Invalid email format"]⟩ ∧
    getA c10st.writers_database "" = some c10writer ∧
    c10ext.checkpw "pw" c10writer.password = true ∧
    (rpcLogin c10ext c10st ["", "pw"]).2.operation ≠ SUCCESS := by
  refine ⟨by decide, by decide, by decide, by decide⟩

theorem applyBlog_log_eq (ext : Ext) (salt now : String) (e : RaftLogEntry)
    (s s' : ServerSt) (h : applyBlogOperation ext salt now e s = some s') :
    s'.log = s.log := by
  unfold applyBlogOperation at h
  by_cases h1 : e.operation = "SUBSCRIBE"
  · rw [if_pos h1] at h
    repeat' split at h
    all_goals
      first
        | (simp only [Option.some.injEq] at h; subst h; rfl)
        | exact Option.noConfusion h
  · rw [if_neg h1] at h
    by_cases h2 : e.operation = "CREATE_ACCOUNT"
    · rw [if_pos h2] at h
      repeat' split at h
      all_goals
        first
          | (simp only [Option.some.injEq] at h; subst h; rfl)
          | exact Option.noConfusion h
    · rw [if_neg h2] at h
      by_cases h3 : e.operation = "COMMENT_POST"
      · rw [if_pos h3] at h
        repeat' split at h
        all_goals
          first
            | (simp only [Option.some.injEq] at h; subst h; rfl)
            | exact Option.noConfusion h
      · rw [if_neg h3] at h
        by_cases h4 : e.operation = "CREATE_POST"
        · rw [if_pos h4] at h
          repeat' split at h
          all_goals
            first
              | (simp only [Option.some.injEq] at h; subst h; rfl)
              | exact Option.noConfusion h
        · rw [if_neg h4] at h
          by_cases h5 : e.operation = "LIKE_POST"
          · rw [if_pos h5] at h
            repeat' split at h
            all_goals
              first
                | (simp only [Option.some.injEq] at h; subst h; rfl)
                | exact Option.noConfusion h
          · rw [if_neg h5] at h
            by_cases h6 : e.operation = "UNLIKE_POST"
            · rw [if_pos h6] at h
              repeat' split at h
              all_goals
                first
                  | (simp only [Option.some.injEq] at h; subst h; rfl)
                  | exact Option.noConfusion h
            · rw [if_neg h6] at h
              by_cases h7 : e.operation = "DELETE_POST"
              · rw [if_pos h7] at h
                repeat' split at h
                all_goals
                  first
                    | (simp only [Option.some.injEq] at h; subst h; rfl)
                    | exact Option.noConfusion h
              · rw [if_neg h7] at h
                by_cases h8 : e.operation = "DELETE_ACCOUNT"
                · rw [if_pos h8] at h
                  repeat' split at h
                  all_goals
                    first
                      | (simp only [Option.some.injEq] at h; subst h; rfl)
                      | exact Option.noConfusion h
                · rw [if_neg h8] at h
                  by_cases h9 : e.operation = "ADD_REPLICA"
                  · rw [if_pos h9] at h
                    repeat' split at h
                    all_goals
                      first
                        | (simp only [Option.some.injEq] at h; subst h; rfl)
                        | exact Option.noConfusion h
                  · rw [if_neg h9] at h
                    by_cases h10 : e.operation = "REMOVE_REPLICA"
                    · rw [if_pos h10] at h
                      repeat' split at h
                      all_goals
                        first
                          | (simp only [Option.some.injEq] at h; subst h; rfl)
                          | exact Option.noConfusion h
                    · rw [if_neg h10] at h
                      simp only [Option.some.injEq] at h
                      subst h
                      rfl

theorem applyN_log_eq (ext : Ext) (oracle : Nat → String × String) :
    ∀ k s s', applyN ext oracle k s = some s' → s'.log = s.log := by
  intro k
  induction k with
  | zero =>
    intro s s' h
    simp only [applyN, Option.some.injEq] at h
    rw [← h]
  | succ k ih =>
    intro s s' h
    unfold applyN at h
    split at h
    · split at h
      · exact Option.noConfusion h
      · split at h
        · exact Option.noConfusion h
        · rename_i s2 ha
          have h1 := ih _ _ h
          have h2 := applyBlog_log_eq _ _ _ _ _ _ ha
          rw [h1, h2]
    · simp only [Option.some.injEq] at h
      rw [← h]

theorem applyCommitted_log_eq (ext : Ext) (oracle : Nat → String × String)
    (s s' : ServerSt) (h : applyCommitted ext oracle s = some s') :
    s'.log = s.log :=
  applyN_log_eq ext oracle _ s s' h

theorem appendEntriesStep_prev0 (ext : Ext) (oracle : Nat → String × String)
    (s : ServerSt) (req : AEReq) (p : ServerSt × AEResp)
    (h0 : req.prevLogIndex = 0) (hterm : ¬ req.term < s.currentTerm)
    (hstep : appendEntriesStep ext oracle s req = some p) :
    p.1.log = req.entries ∧ p.2.success = true := by
  unfold appendEntriesStep at hstep
  rw [if_neg hterm, h0] at hstep
  simp only [reduceIte] at hstep
  repeat' split at hstep
  all_goals
    first
      | (simp only [Option.some.injEq] at hstep; rw [← hstep]; exact ⟨rfl, rfl⟩)
      | exact Option.noConfusion hstep
      | (rename_i s4 ha
         simp only [Option.some.injEq] at hstep
         rw [← hstep]
         exact ⟨applyCommitted_log_eq ext oracle _ s4 ha, rfl⟩)
      | simp_all

/-- C1 (amended): in `Server.AppendEntries`, whenever the request's term is not
below the receiver's and prev_idx = 0, the handler succeeds and the local log
afterwards is exactly the request's entries - a wholesale replacement that
truncates every entry the leader did not mention.  The behaviour the claim
describes (clear only when the local first entry's term differs from
new_entries[0].term, then append all new entries) is the one
`RaftNode.append_entries_to_log` implements at prev_idx = 0, but the handler
never reaches it there. -/
theorem C1_amended :
    (∀ ext oracle s req p, req.prevLogIndex = 0 → ¬ req.term < s.currentTerm →
      appendEntriesStep ext oracle s req = some p →
      p.1.log = req.entries ∧ p.2.success = true) ∧
    (∀ log prevTerm e es,
      (log = [] ∨ ∃ l0 rest, log = l0 :: rest ∧ l0.term = e.term) →
      appendEntriesToLog log 0 prevTerm (e :: es) = (log ++ e :: es, true)) ∧
    (∀ l0 rest prevTerm e es, l0.term ≠ e.term →
      appendEntriesToLog (l0 :: rest) 0 prevTerm (e :: es) = (e :: es, true)) := by
  refine ⟨fun ext oracle s req p h0 hterm hstep =>
    appendEntriesStep_prev0 ext oracle s req p h0 hterm hstep, ?_, ?_⟩
  · intro log prevTerm e es hside
    rcases hside with rfl | ⟨l0, rest, rfl, hterm⟩
    · rfl
    · simp [appendEntriesToLog, hterm]
  · intro l0 rest prevTerm e es hterm
    simp [appendEntriesToLog, hterm]

/-- Closed instance of C1 (amended): the handler at the counterexample input,
and append_entries_to_log at prev_idx = 0 with agreeing first terms. -/
theorem C1_amended_witness :
    (({ c1state with log := c1req.entries }, (⟨1, true⟩ : AEResp)).1.log =
        c1req.entries ∧
      ((⟨1, true⟩ : AEResp)).success = true) ∧
    appendEntriesToLog [⟨1, "a", []⟩] 0 0 [⟨1, "a", ["x"]⟩] =
      ([⟨1, "a", []⟩, ⟨1, "a", ["x"]⟩], true) := by
  constructor
  · exact C1_amended.1 extDefault oracleDefault c1state c1req
      ({ c1state with log := c1req.entries }, ⟨1, true⟩) rfl (by decide) (by decide)
  · exact C1_amended.2.1 [⟨1, "a", []⟩] 0 ⟨1, "a", ["x"]⟩ []
      (Or.inr ⟨⟨1, "a", []⟩, [], rfl, rfl⟩)

theorem notVoted_eq (vf : Option String) (cand : String) :
    (!(vf.isSome && (vf != some cand))) = decide (vf = none ∨ vf = some cand) := by
  cases vf with
  | none => simp
  | some a => by_cases h : a = cand <;> simp [h]

theorem logCur_eq (t2 t1 : Int) (i1 i2 : Nat) :
    (decide (t1 > t2) || ((t1 == t2) && decide (i1 ≥ i2))) =
      decide (t1 > t2 ∨ (t1 = t2 ∧ i1 ≥ i2)) := by
  by_cases h : t1 > t2 <;> by_cases h1 : t1 = t2 <;> by_cases h2 : i1 ≥ i2 <;>
    simp [h, h1, h2]

/-- C7: the RequestVote handler realises exactly the claim's rules.  A request
below the receiver's term is refused with (currentTerm, false); otherwise,
after adopting any higher term and clearing votedFor, the vote is granted iff
votedFor is none or the candidate and the candidate's log is at least as
up-to-date (last term greater, or equal last terms and last index at least the
receiver's), and a grant records the candidate in votedFor.
`requestVoteClaim` restates the claim's words; the theorem equates the
handler's resulting (currentTerm, votedFor, voteGranted) with it, and the
reply's term with the post-call currentTerm. -/
theorem C7_requestVote_matches_claim (s : ServerSt) (req : VoteReq) :
    ((requestVote s req).1.currentTerm, (requestVote s req).1.votedFor,
      (requestVote s req).2.voteGranted) = requestVoteClaim s req ∧
    (requestVote s req).2.term = (requestVote s req).1.currentTerm := by
  constructor
  · unfold requestVote requestVoteClaim
    by_cases h1 : req.term < s.currentTerm
    · simp [h1]
    · by_cases h2 : req.term > s.currentTerm
      · have hmax : max s.currentTerm req.term = req.term :=
          max_eq_right (le_of_lt h2)
        simp only [if_neg h1, if_pos h2, hmax, notVoted_eq, logCur_eq,
          lastLogIndexOf]
        by_cases hup : req.lastLogTerm > lastLogTermOf s.log ∨
            (req.lastLogTerm = lastLogTermOf s.log ∧
              req.lastLogIndex ≥ s.log.length)
        · simp [hup]
        · simp [hup]
      · have heq : req.term = s.currentTerm := by omega
        have hmax : max s.currentTerm req.term = s.currentTerm :=
          max_eq_left (by omega)
        simp only [if_neg h1, if_neg h2, hmax, notVoted_eq, logCur_eq,
          lastLogIndexOf]
        by_cases hv : s.votedFor = none ∨ s.votedFor = some req.candidateId
        · by_cases hup : req.lastLogTerm > lastLogTermOf s.log ∨
              (req.lastLogTerm = lastLogTermOf s.log ∧
                req.lastLogIndex ≥ s.log.length)
          · simp [hv, hup]
          · simp [hv, hup]
        · simp [hv]
  · simp only [requestVote]
    split_ifs <;> rfl

/-- C8: every mutating application RPC handled by a node whose role is not
leader fails with the "Not leader" FAILURE response and leaves the whole node
state - log, currentTerm, commitIndex and the application tables - unchanged:
each of the ten mutating handlers checks the role before touching anything. -/
theorem C8_not_leader (ext : Ext) (oracle : Nat → String × String)
    (uuid now : String) (s : ServerSt) (info : List String)
    (h : s.role ≠ Role.leader) :
    rpcCreateAccount ext oracle s info = some (s, notLeaderResp) ∧
    rpcSubscribe ext oracle s info = some (s, notLeaderResp) ∧
    rpcCreatePost ext oracle uuid now s info = some (s, notLeaderResp) ∧
    rpcCommentPost ext oracle now s info = some (s, notLeaderResp) ∧
    rpcLikePost ext oracle s info = some (s, notLeaderResp) ∧
    rpcUnlikePost ext oracle s info = some (s, notLeaderResp) ∧
    rpcDeletePost ext oracle s info = some (s, notLeaderResp) ∧
    rpcDeleteAccount ext oracle s info = some (s, notLeaderResp) ∧
    rpcAddReplica ext oracle s info = some (s, notLeaderResp) ∧
    rpcRemoveReplica ext oracle s info = some (s, notLeaderResp) := by
  refine ⟨?_, ?_, ?_, ?_, ?_, ?_, ?_, ?_, ?_, ?_⟩ <;>
    simp [rpcCreateAccount, rpcSubscribe, rpcCreatePost, rpcCommentPost,
      rpcLikePost, rpcUnlikePost, rpcDeletePost, rpcDeleteAccount,
      rpcAddReplica, rpcRemoveReplica, h]

/-- Closed instance of C8 at a concrete follower state. -/
theorem C8_not_leader_witness :
    rpcCreateAccount extDefault oracleDefault initServer ["n"] =
      some (initServer, notLeaderResp) ∧
    rpcRemoveReplica extDefault oracleDefault initServer ["n"] =
      some (initServer, notLeaderResp) := by
  have h := C8_not_leader extDefault oracleDefault "u" "t" initServer ["n"]
    (by decide)
  exact ⟨h.1, h.2.2.2.2.2.2.2.2.2⟩

/-- C10 (amended): RPCLogin is served whatever the role and never mutates the
state; for a two-element request whose email passes the format validation, it
replies SUCCESS iff the email names an existing writer whose stored hash
verifies the password, and both an unknown email and a failed password check
yield the identical reason "Invalid credentials". -/
theorem C10_amended (ext : Ext) (s : ServerSt) (email password : String)
    (hv : ext.validEmail email = true) :
    (rpcLogin ext s [email, password]).1 = s ∧
    (∀ r : Role, (rpcLogin ext { s with role := r } [email, password]).2 =
        (rpcLogin ext s [email, password]).2) ∧
    ((rpcLogin ext s [email, password]).2.operation = SUCCESS ↔
      ∃ w, getA s.writers_database email = some w ∧
        ext.checkpw password w.password = true) ∧
    (getA s.writers_database email = none →
      (rpcLogin ext s [email, password]).2 = ⟨FAILURE, ["Invalid credentials"]⟩) ∧
    (∀ w, getA s.writers_database email = some w →
      ext.checkpw password w.password = false →
      (rpcLogin ext s [email, password]).2 = ⟨FAILURE, ["Invalid credentials"]⟩) := by
  rcases hw : getA s.writers_database email with _ | w
  · have hr : rpcLogin ext s [email, password] =
        (s, ⟨FAILURE, ["Invalid credentials"]⟩) := by
      simp [rpcLogin, hv, hw]
    have hr2 : ∀ r : Role, rpcLogin ext { s with role := r } [email, password] =
        ({ s with role := r }, ⟨FAILURE, ["Invalid credentials"]⟩) := by
      intro r
      simp [rpcLogin, hv, hw]
    refine ⟨by rw [hr], fun r => by rw [hr, hr2 r], ?_, fun _ => by rw [hr], ?_⟩
    · rw [hr]
      constructor
      · intro hop
        exact absurd hop (by simp [SUCCESS, FAILURE])
      · rintro ⟨w2, hw2, -⟩
        simp at hw2
    · intro w2 hw2 hc2
      simp at hw2
  · by_cases hc : ext.checkpw password w.password = true
    · have hr : rpcLogin ext s [email, password] = (s, ⟨SUCCESS, []⟩) := by
        simp [rpcLogin, hv, hw, hc]
      have hr2 : ∀ r : Role, rpcLogin ext { s with role := r } [email, password] =
          ({ s with role := r }, ⟨SUCCESS, []⟩) := by
        intro r
        simp [rpcLogin, hv, hw, hc]
      refine ⟨by rw [hr], fun r => by rw [hr, hr2 r], ?_, ?_, ?_⟩
      · rw [hr]
        constructor
        · intro _
          exact ⟨w, rfl, hc⟩
        · intro _
          rfl
      · intro hnone
        simp at hnone
      · intro w2 hw2 hc2
        injection hw2 with hww
        subst hww
        simp [hc] at hc2
    · have hcf : ext.checkpw password w.password = false := by
        simpa using hc
      have hr : rpcLogin ext s [email, password] =
          (s, ⟨FAILURE, ["Invalid credentials"]⟩) := by
        simp [rpcLogin, hv, hw, hcf]
      have hr2 : ∀ r : Role, rpcLogin ext { s with role := r } [email, password] =
          ({ s with role := r }, ⟨FAILURE, ["Invalid credentials"]⟩) := by
        intro r
        simp [rpcLogin, hv, hw, hcf]
      refine ⟨by rw [hr], fun r => by rw [hr, hr2 r], ?_, ?_,
        fun _ _ _ => by rw [hr]⟩
      · rw [hr]
        constructor
        · intro hop
          exact absurd hop (by simp [SUCCESS, FAILURE])
        · rintro ⟨w2, hw2, hc2⟩
          injection hw2 with hww
          subst hww
          simp [hcf] at hc2
      · intro hnone
        simp at hnone

/-- Closed instance of C10 (amended) at the counterexample's tables with a
format-valid email. -/
theorem C10_amended_witness :
    (rpcLogin c10ext c10st ["a@x", "pw"]).1 = c10st ∧
    ((rpcLogin c10ext c10st ["a@x", "pw"]).2.operation = SUCCESS ↔
      ∃ w, getA c10st.writers_database "a@x" = some w ∧
        c10ext.checkpw "pw" w.password = true) := by
  have h := C10_amended c10ext c10st "a@x" "pw" (by decide)
  exact ⟨h.1, h.2.2.1⟩

end SNB
